import Mathlib

/-!
# Verification of the drcache bookmarklet (src/bookmarklet.js)

Shallow embedding of the storage-detection, overlay-rendering and
storage-clearing logic of the bookmarklet, together with theorems that
settle the specification claims.

The host browser is modelled explicitly:
* each storage surface is a list of entries (keys, cache names,
  service-worker registrations, IndexedDB database names, cookies);
* an API that is absent or whose access throws is modelled by a `Bool`
  presence flag and an `Option`-valued access result (`none` = throws);
* the cookie jar is a list of cookies keyed by (name, domain, path);
  `document.cookie` renders the jar as `"n1=v1; n2=v2"`, and assigning a
  cookie string with a past `expires` date removes the cookie with the
  matching name, path and domain key (the domain key is the `domain`
  attribute with a leading dot stripped, or the hostname when the
  attribute is absent) — the standard browser cookie-storage model.
-/

/-- JavaScript-style whitespace predicate used by `String.prototype.trim`
(restricted to the common whitespace characters). -/
def isJsWS (c : Char) : Bool :=
  c == ' ' || c == '\t' || c == '\n' || c == '\r'

/-- `trim` on a list of characters: drop whitespace from both ends. -/
def trimList (l : List Char) : List Char :=
  ((l.dropWhile isJsWS).reverse.dropWhile isJsWS).reverse

/-- Embedding of JavaScript `s.trim()`. -/
def jsTrim (s : String) : String :=
  String.mk (trimList s.toList)

/-- Embedding of JavaScript `s.split(sep)` for a one-character separator:
`"".split(";") = [""]`, `";".split(";") = ["", ""]`, etc. -/
def splitOnCharList (sep : Char) : List Char → List (List Char)
  | [] => [[]]
  | c :: cs =>
    if c = sep then [] :: splitOnCharList sep cs
    else
      match splitOnCharList sep cs with
      | [] => [[c]]
      | seg :: rest => (c :: seg) :: rest

/-- Cookie count as computed by the initial detection
(src/bookmarklet.js lines 77-87):
`document.cookie && document.cookie.trim()` guard, then
`document.cookie.split(";").filter(c => c.trim()).length`. -/
def ckCountInit (s : String) : Nat :=
  if s = "" ∨ jsTrim s = "" then 0
  else ((splitOnCharList ';' s.toList).filter
          (fun seg => !(trimList seg).isEmpty)).length

/-- Cookie count as computed by `updateStats`
(src/bookmarklet.js lines 374-380): the ternary
`document.cookie && document.cookie.trim() ? split(";").filter(...).length : 0`. -/
def cookieCountUpd (s : String) : Nat :=
  if s = "" ∨ jsTrim s = "" then 0
  else ((splitOnCharList ';' s.toList).filter
          (fun seg => !(trimList seg).isEmpty)).length

/-- Modelled from the claim wording (C10): the number of `;`-separated
segments of the cookie string that contain a non-whitespace character. -/
def specCookieCount (s : String) : Nat :=
  ((splitOnCharList ';' s.toList).filter
     (fun seg => seg.any (fun c => !isJsWS c))).length

/-! ## Cookie jar model -/

/-- A cookie stored by the browser, keyed by (name, domain, path). -/
structure Cookie where
  name : String
  domain : String
  path : String
  value : String
deriving DecidableEq

/-- The `document.cookie` getter: visible cookies rendered `"n=v; n2=v2"`. -/
def documentCookie (jar : List Cookie) : String :=
  String.intercalate "; " (jar.map (fun c => c.name ++ "=" ++ c.value))

/-- The domain key under which a set-cookie write is stored: the `domain`
attribute with a leading dot stripped, or the hostname when the write has
no `domain` attribute (host model, RFC 6265 storage model). -/
def domainKey (hostname : String) : Option String → String
  | some dm => if dm.toList.head? = some '.' then String.mk dm.toList.tail else dm
  | none => hostname

/-- Effect of one expiring `document.cookie = "n=; expires=...; path=p[; domain=d]"`
write: remove the cookie with matching name, path and domain key. -/
def delMatching (key n p : String) (jar : List Cookie) : List Cookie :=
  jar.filter (fun c => !(c.name == n && c.domain == key && c.path == p))

/-- The cookie name parsed from one `";"`-separated segment by
`clearCookies` (src/bookmarklet.js lines 115-119): trim the segment, skip
it if empty (`continue`), take the part before the first `"="`, trim it,
skip it if empty (`continue`); `none` models a skipped segment. -/
def segName (c : String) : Option String :=
  let trimmed := jsTrim c
  if trimmed = "" then none
  else
    let n := jsTrim (String.mk (trimmed.toList.takeWhile (fun ch => ch ≠ '=')))
    if n = "" then none else some n

/-- All cookie names parsed by `clearCookies` from the cookie string
(split on `";"`, skipped segments dropped). -/
def parsedNames (ckStr : String) : List String :=
  ((splitOnCharList ';' ckStr.toList).map String.mk).filterMap segName

/-- The two expiring write strings of src/bookmarklet.js lines 127-128 for
one name, path and domain variant. -/
def writePair (n p dmn : String) : List String :=
  [n ++ "=; expires=Thu, 01 Jan 1970 00:00:00 GMT; path=" ++ p ++ "; domain=" ++ dmn,
   n ++ "=; expires=Thu, 01 Jan 1970 00:00:00 GMT; path=" ++ p]

/-- All write strings produced for one cookie name by the nested loops of
`clearCookies` (lines 123-130): domains `[hostname, "." + hostname]`,
paths `["/", pathname]`, each with and without the domain attribute. -/
def writeStrings (n hostname pn : String) : List String :=
  [hostname, "." ++ hostname].flatMap (fun dmn =>
    (["/", pn]).flatMap (fun p => writePair n p dmn))

/-- The full sequence of `document.cookie` assignments performed by
`clearCookies` (src/bookmarklet.js lines 106-132): early return on an
empty / all-whitespace cookie string, then per parsed segment the eight
expiring writes, skipping segments whose trimmed text or parsed name is
empty. -/
def cookieWrites (ckStr hostname pn : String) : List String :=
  if ckStr = "" ∨ jsTrim ckStr = "" then []
  else ((splitOnCharList ';' ckStr.toList).map String.mk).flatMap (fun c =>
    match segName c with
    | none => []
    | some n => writeStrings n hostname pn)

/-- Effect on the jar of the eight expiring writes for one cookie name,
in source order (with-domain write first, then without). -/
def applyNameDeletions (hostname pn n : String) (jar : List Cookie) : List Cookie :=
  [hostname, "." ++ hostname].foldl (fun j1 dmn =>
    (["/", pn]).foldl (fun j2 p =>
      delMatching (domainKey hostname none) n p
        (delMatching (domainKey hostname (some dmn)) n p j2)) j1) jar

/-- Effect of `clearCookies` on the cookie jar: the names are parsed from
the `document.cookie` snapshot taken before any write (lines 108/113),
then each name's eight expiring writes are applied. -/
def clearCookiesJar (hostname pn : String) (jar : List Cookie) : List Cookie :=
  let ckStr := documentCookie jar
  if ckStr = "" ∨ jsTrim ckStr = "" then jar
  else (parsedNames ckStr).foldl (fun j n => applyNameDeletions hostname pn n j) jar

/-! ## Detection (Storage Inspector) -/

/-- The storage-summary record `s` (src/bookmarklet.js lines 26-34):
six numeric counts (the storage estimate field is not modelled; no claim
concerns it). -/
structure Stats where
  ls : Nat
  ss : Nat
  c : Nat
  sw : Nat
  idb : Nat
  ck : Nat
deriving DecidableEq

/-- The host execution environment as seen by the detection code.
A `Bool` field models presence of an API object or property; an `Option`
field models an access that may throw (`none` = the access throws). -/
structure HostEnv where
  lsKeys : Option (List String)
  ssKeys : Option (List String)
  cachesPresent : Bool
  cachesKeys : Option (List String)
  swPresent : Bool
  swRegs : Option (List String)
  idbPresent : Bool
  idbFn : Bool
  idbDbs : Option (List String)
  cookieStr : Option String

/-- Initial detection sequence (src/bookmarklet.js lines 26-96).  Every
probe is wrapped in its own `try` block, and the presence tests
(`"caches" in w`, `"serviceWorker" in navigator`, `indexedDB.databases`)
sit inside those blocks, so a throwing or absent API degrades its count
to zero. -/
def detectInitial (e : HostEnv) : Stats :=
  let ls := match e.lsKeys with | some ks => ks.length | none => 0
  let ss := match e.ssKeys with | some ks => ks.length | none => 0
  let c := if e.cachesPresent then
      (match e.cachesKeys with | some ks => ks.length | none => 0) else 0
  let sw := if e.swPresent then
      (match e.swRegs with | some rs => rs.length | none => 0) else 0
  let idb := if e.idbPresent then
      (if e.idbFn then
        (match e.idbDbs with | some dbs => dbs.length | none => 0) else 0)
    else 0
  let ck := match e.cookieStr with | some str => ckCountInit str | none => 0
  ⟨ls, ss, c, sw, idb, ck⟩

/-- Re-detection performed by `updateStats` (src/bookmarklet.js
lines 324-389).  The caches and service-worker presence tests cannot
throw, but the test `if (indexedDB.databases)` on line 348 sits OUTSIDE
any `try` block: when the `indexedDB` global is absent its evaluation
throws, which the embedding reports as `Except.error ()`. -/
def updateStatsCounts (e : HostEnv) : Except Unit Stats :=
  let cachesCount := if e.cachesPresent then
      (match e.cachesKeys with | some ks => ks.length | none => 0) else 0
  let swCount := if e.swPresent then
      (match e.swRegs with | some rs => rs.length | none => 0) else 0
  if e.idbPresent = false then Except.error () else
  let idbCount := if e.idbFn then
      (match e.idbDbs with | some dbs => dbs.length | none => 0) else 0
  let lsCount := match e.lsKeys with | some ks => ks.length | none => 0
  let ssCount := match e.ssKeys with | some ks => ks.length | none => 0
  let cookieCount := match e.cookieStr with | some str => cookieCountUpd str | none => 0
  Except.ok ⟨lsCount, ssCount, cachesCount, swCount, idbCount, cookieCount⟩

/-- An environment in which every storage API is absent (in particular the
`indexedDB` global does not exist). -/
def envAllAbsent : HostEnv :=
  ⟨none, none, false, none, false, none, false, false, none, none⟩

/-! ## Overlay Presenter -/

/-- One checkbox of the overlay: the arguments of a `chk` call
(src/bookmarklet.js line 164): element id, label, and whether the
`disabled` attribute is rendered (the fourth argument `x`). -/
structure ChkSpec where
  id : String
  label : String
  disabled : Bool
deriving DecidableEq

/-- The five `chk` calls of the overlay (src/bookmarklet.js
lines 256-260): one checkbox per clearable surface, disabled exactly when
the corresponding detected count is `0` (the `s.xx === 0` arguments). -/
def overlayChecks (st : Stats) : List ChkSpec :=
  [⟨"l", "Clear localStorage", decide (st.ls = 0)⟩,
   ⟨"s", "Clear sessionStorage", decide (st.ss = 0)⟩,
   ⟨"c", "Delete Cache Storage", decide (st.c = 0)⟩,
   ⟨"w", "Unregister service workers", decide (st.sw = 0)⟩,
   ⟨"k", "Attempt to clear cookies", decide (st.ck = 0)⟩]

/-- The detected count a checkbox id refers to. -/
def countOf (st : Stats) : String → Nat
  | "l" => st.ls
  | "s" => st.ss
  | "c" => st.c
  | "w" => st.sw
  | "k" => st.ck
  | _ => 0

/-! ## Clear button handler (Storage Clearer) -/

/-- The browser storage state mutated by the clear handler. -/
structure Store where
  ls : List String
  ss : List String
  caches : List String
  sw : List String
  idb : List String
  cookies : List Cookie
deriving DecidableEq

/-- Which checkboxes are checked when `#run` fires (`d.getElementById(..).checked`). -/
structure Checks where
  l : Bool
  s : Bool
  c : Bool
  w : Bool
  k : Bool
deriving DecidableEq

/-- Per-surface failure pattern: whether each host clear operation
completes without throwing. -/
structure ClearEnv where
  lsOk : Bool
  ssOk : Bool
  cOk : Bool
  swOk : Bool
  ckOk : Bool
deriving DecidableEq

/-- localStorage branch of the `#run` handler (lines 406-413):
`localStorage.clear()` inside `try`, pushing `"localStorage cleared"` or
`"localStorage failed"`. -/
def stepL (sel ok : Bool) (p : Store × List String) : Store × List String :=
  if sel then
    (if ok then ({p.1 with ls := []}, p.2 ++ ["localStorage cleared"])
     else (p.1, p.2 ++ ["localStorage failed"]))
  else p

/-- sessionStorage branch (lines 416-423). -/
def stepS (sel ok : Bool) (p : Store × List String) : Store × List String :=
  if sel then
    (if ok then ({p.1 with ss := []}, p.2 ++ ["sessionStorage cleared"])
     else (p.1, p.2 ++ ["sessionStorage failed"]))
  else p

/-- Cache Storage branch (lines 426-435): `for (const k of await
caches.keys()) await caches.delete(k)` — enumerate the keys snapshot and
delete each one. -/
def stepC (sel ok : Bool) (p : Store × List String) : Store × List String :=
  if sel then
    (if ok then
       ({p.1 with caches := p.1.caches.foldl List.erase p.1.caches},
        p.2 ++ ["Cache Storage cleared"])
     else (p.1, p.2 ++ ["Cache Storage failed"]))
  else p

/-- Service-worker branch (lines 438-447): enumerate the registrations
snapshot and unregister each one. -/
def stepW (sel ok : Bool) (p : Store × List String) : Store × List String :=
  if sel then
    (if ok then
       ({p.1 with sw := p.1.sw.foldl List.erase p.1.sw},
        p.2 ++ ["Service workers unregistered"])
     else (p.1, p.2 ++ ["Service workers failed"]))
  else p

/-- Cookie branch (lines 450-457): `await clearCookies()` inside `try`. -/
def stepK (sel ok : Bool) (hostname pn : String) (p : Store × List String) :
    Store × List String :=
  if sel then
    (if ok then
       ({p.1 with cookies := clearCookiesJar hostname pn p.1.cookies},
        p.2 ++ ["Cookie cleanup attempted"])
     else (p.1, p.2 ++ ["Cookie cleanup failed"]))
  else p

/-- The `#run` onclick handler (src/bookmarklet.js lines 402-457): the
five guarded clear branches in source order, threading the storage state
and the `log` array. -/
def runClear (ck : Checks) (env : ClearEnv) (hostname pn : String) (st : Store) :
    Store × List String :=
  stepK ck.k env.ckOk hostname pn
    (stepW ck.w env.swOk
      (stepC ck.c env.cOk
        (stepS ck.s env.ssOk
          (stepL ck.l env.lsOk (st, [])))))

/-- The output rendering of lines 459-467: the no-selection message when
the log is empty, otherwise the bulleted results list. -/
def renderOut (log : List String) : String :=
  if log.length = 0 then
    "<div style=\x27margin-top:8px;opacity:.7\x27>No items selected for clearing.</div>"
  else
    "<div style=\x27margin-top:8px\x27><strong>Results:</strong><br>" ++
      String.intercalate "<br>" (log.map (fun x => "• " ++ x)) ++ "</div>"

/-- Re-detection counts read back from a store through an environment in
which every API is present and none throws. -/
def envOfStore (st : Store) : HostEnv :=
  ⟨some st.ls, some st.ss, true, some st.caches, true, some st.sw,
   true, true, some st.idb, some (documentCookie st.cookies)⟩

/-- The counts `updateStats` displays for a benign environment over a store. -/
def detectStore (st : Store) : Stats :=
  ⟨st.ls.length, st.ss.length, st.caches.length, st.sw.length, st.idb.length,
   cookieCountUpd (documentCookie st.cookies)⟩

/-! ### Expected status lines -/

/-- Status line contributed by the localStorage branch. -/
def logL (sel ok : Bool) : List String :=
  if sel then [if ok then "localStorage cleared" else "localStorage failed"] else []

/-- Status line contributed by the sessionStorage branch. -/
def logS (sel ok : Bool) : List String :=
  if sel then [if ok then "sessionStorage cleared" else "sessionStorage failed"] else []

/-- Status line contributed by the Cache Storage branch. -/
def logC (sel ok : Bool) : List String :=
  if sel then [if ok then "Cache Storage cleared" else "Cache Storage failed"] else []

/-- Status line contributed by the service-worker branch. -/
def logW (sel ok : Bool) : List String :=
  if sel then [if ok then "Service workers unregistered" else "Service workers failed"] else []

/-- Status line contributed by the cookie branch. -/
def logK (sel ok : Bool) : List String :=
  if sel then [if ok then "Cookie cleanup attempted" else "Cookie cleanup failed"] else []

/-- The full status log of one handler run as a function of the selection
and the failure pattern alone. -/
def expectedLog (ck : Checks) (env : ClearEnv) : List String :=
  logL ck.l env.lsOk ++ logS ck.s env.ssOk ++ logC ck.c env.cOk ++
    logW ck.w env.swOk ++ logK ck.k env.ckOk

/-! ### Substring helper (for "the line reads ...") -/

/-- Whether `pat` is a prefix of `l`. -/
def isPrefixOfList : List Char → List Char → Bool
  | [], _ => true
  | _ :: _, [] => false
  | a :: as, b :: bs => a == b && isPrefixOfList as bs

/-- Whether `pat` occurs as a contiguous substring of `l`. -/
def containsSub (pat : List Char) : List Char → Bool
  | [] => isPrefixOfList pat []
  | l@(_ :: rest) => isPrefixOfList pat l || containsSub pat rest

/-! ## Helper lemmas -/

lemma foldl_erase_self (l : List String) : l.foldl List.erase l = [] := by
  induction l with
  | nil => rfl
  | cons a t ih => simpa [List.foldl_cons] using ih

@[simp] lemma stepL_fst (sel ok : Bool) (p : Store × List String) :
    (stepL sel ok p).1 = if sel && ok then {p.1 with ls := []} else p.1 := by
  cases sel <;> cases ok <;> rfl

@[simp] lemma stepL_snd (sel ok : Bool) (p : Store × List String) :
    (stepL sel ok p).2 = p.2 ++ logL sel ok := by
  cases sel <;> cases ok <;> simp [stepL, logL]

@[simp] lemma stepS_fst (sel ok : Bool) (p : Store × List String) :
    (stepS sel ok p).1 = if sel && ok then {p.1 with ss := []} else p.1 := by
  cases sel <;> cases ok <;> rfl

@[simp] lemma stepS_snd (sel ok : Bool) (p : Store × List String) :
    (stepS sel ok p).2 = p.2 ++ logS sel ok := by
  cases sel <;> cases ok <;> simp [stepS, logS]

@[simp] lemma stepC_fst (sel ok : Bool) (p : Store × List String) :
    (stepC sel ok p).1 =
      if sel && ok then {p.1 with caches := []} else p.1 := by
  cases sel <;> cases ok <;> simp [stepC, foldl_erase_self]

@[simp] lemma stepC_snd (sel ok : Bool) (p : Store × List String) :
    (stepC sel ok p).2 = p.2 ++ logC sel ok := by
  cases sel <;> cases ok <;> simp [stepC, logC]

@[simp] lemma stepW_fst (sel ok : Bool) (p : Store × List String) :
    (stepW sel ok p).1 =
      if sel && ok then {p.1 with sw := []} else p.1 := by
  cases sel <;> cases ok <;> simp [stepW, foldl_erase_self]

@[simp] lemma stepW_snd (sel ok : Bool) (p : Store × List String) :
    (stepW sel ok p).2 = p.2 ++ logW sel ok := by
  cases sel <;> cases ok <;> simp [stepW, logW]

@[simp] lemma stepK_fst (sel ok : Bool) (hostname pn : String) (p : Store × List String) :
    (stepK sel ok hostname pn p).1 =
      if sel && ok then {p.1 with cookies := clearCookiesJar hostname pn p.1.cookies}
      else p.1 := by
  cases sel <;> cases ok <;> rfl

@[simp] lemma stepK_snd (sel ok : Bool) (hostname pn : String) (p : Store × List String) :
    (stepK sel ok hostname pn p).2 = p.2 ++ logK sel ok := by
  cases sel <;> cases ok <;> simp [stepK, logK]

/-- The status log of a handler run depends only on the selection and the
failure pattern, one line per attempted surface, in source order. -/
lemma runClear_log (ck : Checks) (env : ClearEnv) (hostname pn : String) (st : Store) :
    (runClear ck env hostname pn st).2 = expectedLog ck env := by
  simp [runClear, expectedLog, List.append_assoc]

lemma trimList_eq_nil_iff (l : List Char) :
    trimList l = [] ↔ ∀ c ∈ l, isJsWS c := by
  unfold trimList
  rw [List.reverse_eq_nil_iff, List.dropWhile_eq_nil_iff]
  constructor
  · intro h c hc
    have hsplit := List.takeWhile_append_dropWhile (p := isJsWS) (l := l)
    rw [← hsplit] at hc
    rcases List.mem_append.mp hc with htk | hdp
    · exact List.mem_takeWhile_imp htk
    · exact h c (List.mem_reverse.mpr hdp)
  · intro h c hc
    exact h c ((List.dropWhile_sublist isJsWS).subset (List.mem_reverse.mp hc))

lemma splitOnCharList_of_notMem (sep : Char) (l : List Char) (h : sep ∉ l) :
    splitOnCharList sep l = [l] := by
  induction l with
  | nil => rfl
  | cons c cs ih =>
    have hc : ¬ c = sep := by
      intro e
      exact h (e ▸ List.mem_cons_self c cs)
    have hcs : sep ∉ cs := fun hm => h (List.mem_cons_of_mem _ hm)
    simp [splitOnCharList, hc, ih hcs]

lemma jsTrim_eq_empty_iff (s : String) :
    jsTrim s = "" ↔ ∀ c ∈ s.toList, isJsWS c := by
  unfold jsTrim
  rw [show ("" : String) = String.mk [] from rfl, String.ext_iff]
  exact trimList_eq_nil_iff s.toList

lemma trim_nonempty_iff_any (seg : List Char) :
    (!(trimList seg).isEmpty) = seg.any (fun c => !isJsWS c) := by
  by_cases h : trimList seg = []
  · have hall := (trimList_eq_nil_iff seg).mp h
    simp [h, List.any_eq_true]
    intro c hc
    simpa using hall c hc
  · have hex : ¬ ∀ c ∈ seg, isJsWS c :=
      fun hall => h ((trimList_eq_nil_iff seg).mpr hall)
    push_neg at hex
    obtain ⟨c, hc, hw⟩ := hex
    have hne : (trimList seg).isEmpty = false := by
      rcases he : trimList seg with _ | _
      · exact absurd he h
      · rfl
    rw [hne, Bool.not_false, eq_comm, List.any_eq_true]
    exact ⟨c, hc, by simpa using hw⟩

/-! ## Concrete fixtures -/

/-- No clear operation throws. -/
def envAllOk : ClearEnv := ⟨true, true, true, true, true⟩

/-- Every checkbox checked. -/
def allOn : Checks := ⟨true, true, true, true, true⟩

/-- No checkbox checked. -/
def noneOn : Checks := ⟨false, false, false, false, false⟩

/-- Only the service-worker checkbox checked. -/
def onlyW : Checks := ⟨false, false, false, true, false⟩

/-- Only the cookie checkbox checked. -/
def onlyK : Checks := ⟨false, false, false, false, true⟩

/-- A store with one entry on every surface. -/
def stFull : Store :=
  ⟨["k1"], ["k2"], ["c1"], ["r1"], ["db1"], [⟨"a", "example.com", "/", "v"⟩]⟩

/-- A store whose only content is one cookie stored under path `/other`. -/
def stCkOnly : Store :=
  ⟨[], [], [], [], [], [⟨"a", "example.com", "/other", "v"⟩]⟩

/-! ## Claims -/

/-- C10: the initial detection and `updateStats` compute the same cookie
count from the same `document.cookie` string — the number of
`;`-separated segments containing a non-whitespace character, and `0`
when the string is empty or all whitespace — so the two computations
agree on every cookie string. -/
theorem cookieCount_init_eq_upd (s : String) :
    ckCountInit s = cookieCountUpd s ∧ ckCountInit s = specCookieCount s := by
  refine ⟨rfl, ?_⟩
  by_cases hs : s = ""
  · subst hs; rfl
  unfold ckCountInit specCookieCount
  by_cases h : jsTrim s = ""
  · rw [if_pos (Or.inr h)]
    have hws : ∀ c ∈ s.toList, isJsWS c := (jsTrim_eq_empty_iff s).mp h
    have hsep : (';' : Char) ∉ s.toList := by
      intro hm
      have := hws _ hm
      simp [isJsWS] at this
    rw [splitOnCharList_of_notMem _ _ hsep]
    have hany : s.toList.any (fun c => !isJsWS c) = false := by
      rw [List.any_eq_false]
      intro c hc
      simpa using hws c hc
    have hno : ¬ ∃ x ∈ s.data, isJsWS x = false := by
      rintro ⟨x, hx, hfalse⟩
      have hx2 := hws x hx
      rw [hx2] at hfalse
      cases hfalse
    simp [List.filter_cons, hany, hno]
  · rw [if_neg (by tauto)]
    congr 1
    apply List.filter_congr
    intro seg _
    exact trim_nonempty_iff_any seg

/-- C2 (code bug): with the `indexedDB` global absent, the initial
detection degrades every count to zero, but the re-detection in
`updateStats` throws — the presence test `if (indexedDB.databases)` on
line 348 is evaluated outside every `try` block, so its `TypeError` /
`ReferenceError` propagates out of `updateStats`. -/
theorem updateStats_throws_when_idb_absent :
    detectInitial envAllAbsent = ⟨0, 0, 0, 0, 0, 0⟩ ∧
    updateStatsCounts envAllAbsent = Except.error () :=
  ⟨rfl, rfl⟩

/-- C6: the overlay exposes exactly one checkbox per clearable surface
(element ids `l`, `s`, `c`, `w`, `k`), and a checkbox is rendered
pre-disabled exactly when the corresponding detected count is zero. -/
theorem overlay_checkbox_disabled_iff_zero (st : Stats) :
    (overlayChecks st).map ChkSpec.id = ["l", "s", "c", "w", "k"] ∧
    ∀ e ∈ overlayChecks st, (e.disabled = true ↔ countOf st e.id = 0) := by
  refine ⟨rfl, ?_⟩
  intro e he
  simp only [overlayChecks, List.mem_cons, List.not_mem_nil, or_false] at he
  rcases he with rfl | rfl | rfl | rfl | rfl <;> simp [countOf]

/-- Witness for C6: the localStorage checkbox of the stats record
`⟨0, 1, 2, 3, 4, 5⟩` is disabled and its count is zero. -/
theorem overlay_checkbox_disabled_iff_zero_witness :
    ((overlayChecks ⟨0, 1, 2, 3, 4, 5⟩).map ChkSpec.id = ["l", "s", "c", "w", "k"]) ∧
    ((ChkSpec.mk "l" "Clear localStorage" (decide ((0 : Nat) = 0))).disabled = true ↔
      countOf ⟨0, 1, 2, 3, 4, 5⟩ "l" = 0) := by
  obtain ⟨h1, h2⟩ := overlay_checkbox_disabled_iff_zero ⟨0, 1, 2, 3, 4, 5⟩
  exact ⟨h1, h2 _ (List.mem_cons_self _ _)⟩

/-- C4: with no checkbox checked, the handler leaves the whole store
unchanged, produces an empty log, and renders the
"No items selected for clearing." message. -/
theorem no_selection_no_mutation (env : ClearEnv) (hostname pn : String) (st : Store) :
    runClear noneOn env hostname pn st = (st, []) ∧
    containsSub "No items selected".toList
      (renderOut (runClear noneOn env hostname pn st).2).toList = true := by
  have h1 : runClear noneOn env hostname pn st = (st, []) := rfl
  refine ⟨h1, ?_⟩
  rw [h1]
  rfl

/-- C3 (counterexample): with only the service-worker checkbox checked
and the operation succeeding, the attempted surface's status line is
"Service workers unregistered" — it does not read "cleared". -/
theorem success_line_not_cleared :
    (runClear onlyW envAllOk "example.com" "/p" stFull).2 =
      ["Service workers unregistered"] ∧
    containsSub "cleared".toList "Service workers unregistered".toList = false := by
  constructor
  · rfl
  · rfl

/-- C3 (amended): for every selection and every failure pattern, each
attempted surface contributes exactly one status line, independent of
the other surfaces' outcomes: "... cleared" on success for localStorage,
sessionStorage and Cache Storage, "Service workers unregistered" and
"Cookie cleanup attempted" for the other two, and "... failed" on
failure, in source order. -/
theorem clear_log_characterization (ck : Checks) (env : ClearEnv)
    (hostname pn : String) (st : Store) :
    (runClear ck env hostname pn st).2 = expectedLog ck env :=
  runClear_log ck env hostname pn st

/-- C9: a surface whose checkbox is unchecked is left unchanged by the
clear handler; the IndexedDB list is unchanged unconditionally. -/
theorem unchecked_surfaces_unchanged (ck : Checks) (env : ClearEnv)
    (hostname pn : String) (st : Store) :
    (ck.l = false → (runClear ck env hostname pn st).1.ls = st.ls) ∧
    (ck.s = false → (runClear ck env hostname pn st).1.ss = st.ss) ∧
    (ck.c = false → (runClear ck env hostname pn st).1.caches = st.caches) ∧
    (ck.w = false → (runClear ck env hostname pn st).1.sw = st.sw) ∧
    (ck.k = false → (runClear ck env hostname pn st).1.cookies = st.cookies) ∧
    (runClear ck env hostname pn st).1.idb = st.idb := by
  refine ⟨fun h => ?_, fun h => ?_, fun h => ?_, fun h => ?_, fun h => ?_, ?_⟩ <;>
    simp [runClear, apply_ite Store.ls, apply_ite Store.ss, apply_ite Store.caches,
      apply_ite Store.sw, apply_ite Store.cookies, apply_ite Store.idb] <;>
    simp [h]

/-- Witness for C9: with only the service-worker checkbox checked, the
other surfaces of `stFull` are unchanged. -/
theorem unchecked_surfaces_unchanged_witness :
    (runClear onlyW envAllOk "example.com" "/p" stFull).1.ls = stFull.ls ∧
    (runClear onlyW envAllOk "example.com" "/p" stFull).1.cookies = stFull.cookies := by
  obtain ⟨h1, _, _, _, h5, _⟩ :=
    unchecked_surfaces_unchanged onlyW envAllOk "example.com" "/p" stFull
  exact ⟨h1 rfl, h5 rfl⟩

/-- C1 (counterexample): the overlay offers exactly five checkboxes —
ids `l`, `s`, `c`, `w`, `k`; none for IndexedDB — and even with every
checkbox checked and every clear operation succeeding, the IndexedDB
database list is untouched: no branch of the handler clears IndexedDB. -/
theorem idb_not_selectable_not_cleared :
    (overlayChecks (detectStore stFull)).map ChkSpec.id = ["l", "s", "c", "w", "k"] ∧
    (runClear allOn envAllOk "example.com" "/p" stFull).1.idb = ["db1"] := by
  constructor
  · rfl
  · rfl

/-- C1 (amended): for every selected surface the handler performs the
corresponding clear operation — bulk clear emptying localStorage and
sessionStorage, enumerate-and-delete emptying Cache Storage and the
service-worker registrations, best-effort expiring writes on the cookie
jar — while IndexedDB has no checkbox and is never cleared. -/
theorem clear_per_selected_surface (ck : Checks) (env : ClearEnv)
    (hostname pn : String) (st : Store) :
    (ck.l = true → env.lsOk = true → (runClear ck env hostname pn st).1.ls = []) ∧
    (ck.s = true → env.ssOk = true → (runClear ck env hostname pn st).1.ss = []) ∧
    (ck.c = true → env.cOk = true → (runClear ck env hostname pn st).1.caches = []) ∧
    (ck.w = true → env.swOk = true → (runClear ck env hostname pn st).1.sw = []) ∧
    (ck.k = true → env.ckOk = true →
      (runClear ck env hostname pn st).1.cookies = clearCookiesJar hostname pn st.cookies) ∧
    (runClear ck env hostname pn st).1.idb = st.idb := by
  refine ⟨fun h1 h2 => ?_, fun h1 h2 => ?_, fun h1 h2 => ?_, fun h1 h2 => ?_,
    fun h1 h2 => ?_, ?_⟩ <;>
    simp [runClear, apply_ite Store.ls, apply_ite Store.ss, apply_ite Store.caches,
      apply_ite Store.sw, apply_ite Store.cookies, apply_ite Store.idb] <;>
    simp [h1, h2]

/-- Witness for C1 (amended): applied to a store with one entry per
surface, every checkbox checked, nothing failing. -/
theorem clear_per_selected_surface_witness :
    (runClear allOn envAllOk "example.com" "/p" stFull).1.ls = [] ∧
    (runClear allOn envAllOk "example.com" "/p" stFull).1.caches = [] ∧
    (runClear allOn envAllOk "example.com" "/p" stFull).1.cookies =
      clearCookiesJar "example.com" "/p" stFull.cookies := by
  obtain ⟨h1, _, h3, _, h5, _⟩ :=
    clear_per_selected_surface allOn envAllOk "example.com" "/p" stFull
  exact ⟨h1 rfl rfl, h3 rfl rfl, h5 rfl rfl⟩

/-- C5 (amended): re-detection through `updateStats` after the handler
run reads the updated store, and a successfully cleared localStorage,
sessionStorage, Cache Storage or service-worker surface re-detects as
count 0; cookie removal is best-effort only and its re-detected count
can stay positive. -/
theorem cleared_surface_redetects_zero (ck : Checks) (env : ClearEnv)
    (hostname pn : String) (st : Store) :
    (updateStatsCounts (envOfStore (runClear ck env hostname pn st).1) =
      Except.ok (detectStore (runClear ck env hostname pn st).1)) ∧
    (st.ls ≠ [] → ck.l = true → env.lsOk = true →
      (detectStore (runClear ck env hostname pn st).1).ls = 0) ∧
    (st.ss ≠ [] → ck.s = true → env.ssOk = true →
      (detectStore (runClear ck env hostname pn st).1).ss = 0) ∧
    (st.caches ≠ [] → ck.c = true → env.cOk = true →
      (detectStore (runClear ck env hostname pn st).1).c = 0) ∧
    (st.sw ≠ [] → ck.w = true → env.swOk = true →
      (detectStore (runClear ck env hostname pn st).1).sw = 0) := by
  refine ⟨rfl, fun _ h1 h2 => ?_, fun _ h1 h2 => ?_, fun _ h1 h2 => ?_,
    fun _ h1 h2 => ?_⟩ <;>
    simp [detectStore, runClear, apply_ite Store.ls, apply_ite Store.ss,
      apply_ite Store.caches, apply_ite Store.sw] <;>
    simp [h1, h2]

/-- Witness for C5 (amended): clearing the non-empty surfaces of `stFull`
re-detects them at zero. -/
theorem cleared_surface_redetects_zero_witness :
    (detectStore (runClear allOn envAllOk "example.com" "/p" stFull).1).ls = 0 ∧
    (detectStore (runClear allOn envAllOk "example.com" "/p" stFull).1).sw = 0 := by
  obtain ⟨_, h1, _, _, h4⟩ :=
    cleared_surface_redetects_zero allOn envAllOk "example.com" "/p" stFull
  exact ⟨h1 (by decide) rfl rfl, h4 (by decide) rfl rfl⟩

/-- C5 (counterexample): a cookie stored under path `/other` survives a
successful cookie clear — the handler reports "Cookie cleanup attempted"
without error, the surface had 1 > 0 entries, yet re-detection still
reports 1, not 0. -/
theorem cookie_clear_redetects_nonzero :
    (detectStore stCkOnly).ck = 1 ∧
    (runClear onlyK envAllOk "example.com" "/page" stCkOnly).2 =
      ["Cookie cleanup attempted"] ∧
    (detectStore (runClear onlyK envAllOk "example.com" "/page" stCkOnly).1).ck = 1 := by
  refine ⟨rfl, rfl, rfl⟩

/-- A store with every surface empty. -/
def stEmpty : Store := ⟨[], [], [], [], [], []⟩

/-- C7: a selected surface that is already empty (the host clear
operation has nothing to do and does not throw) reports its success
status line, not a failure. -/
theorem empty_surface_reports_success (ck : Checks) (env : ClearEnv)
    (hostname pn : String) (st : Store) :
    (st.ls = [] → ck.l = true → env.lsOk = true →
      "localStorage cleared" ∈ (runClear ck env hostname pn st).2 ∧
      "localStorage failed" ∉ (runClear ck env hostname pn st).2) ∧
    (st.ss = [] → ck.s = true → env.ssOk = true →
      "sessionStorage cleared" ∈ (runClear ck env hostname pn st).2 ∧
      "sessionStorage failed" ∉ (runClear ck env hostname pn st).2) ∧
    (st.caches = [] → ck.c = true → env.cOk = true →
      "Cache Storage cleared" ∈ (runClear ck env hostname pn st).2 ∧
      "Cache Storage failed" ∉ (runClear ck env hostname pn st).2) ∧
    (st.sw = [] → ck.w = true → env.swOk = true →
      "Service workers unregistered" ∈ (runClear ck env hostname pn st).2 ∧
      "Service workers failed" ∉ (runClear ck env hostname pn st).2) ∧
    (st.cookies = [] → ck.k = true → env.ckOk = true →
      "Cookie cleanup attempted" ∈ (runClear ck env hostname pn st).2 ∧
      "Cookie cleanup failed" ∉ (runClear ck env hostname pn st).2) := by
  rw [runClear_log ck env hostname pn st]
  rcases ck with ⟨cl, cs, cc, cw, ckk⟩
  rcases env with ⟨o1, o2, o3, o4, o5⟩
  refine ⟨fun _ h1 h2 => ?_, fun _ h1 h2 => ?_, fun _ h1 h2 => ?_,
    fun _ h1 h2 => ?_, fun _ h1 h2 => ?_⟩ <;> subst h1 <;> subst h2
  · revert cs cc cw ckk o2 o3 o4 o5
    decide
  · revert cl cc cw ckk o1 o3 o4 o5
    decide
  · revert cl cs cw ckk o1 o2 o4 o5
    decide
  · revert cl cs cc ckk o1 o2 o3 o5
    decide
  · revert cl cs cc cw o1 o2 o3 o4
    decide

/-- Witness for C7: all surfaces of the empty store, everything selected,
nothing failing. -/
theorem empty_surface_reports_success_witness :
    "localStorage cleared" ∈ (runClear allOn envAllOk "example.com" "/p" stEmpty).2 ∧
    "Cookie cleanup attempted" ∈ (runClear allOn envAllOk "example.com" "/p" stEmpty).2 := by
  obtain ⟨h1, _, _, _, h5⟩ :=
    empty_surface_reports_success allOn envAllOk "example.com" "/p" stEmpty
  exact ⟨(h1 rfl rfl rfl).1, (h5 rfl rfl rfl).1⟩

lemma writePair_sub (n hostname pn dmn p : String)
    (hdmn : dmn ∈ [hostname, "." ++ hostname]) (hp : p ∈ ["/", pn]) :
    ∀ w ∈ writePair n p dmn, w ∈ writeStrings n hostname pn := by
  intro w hw
  exact List.mem_flatMap.mpr ⟨dmn, hdmn, List.mem_flatMap.mpr ⟨p, hp, hw⟩⟩

lemma parsedNames_writes (ckStr hostname pn : String)
    (hguard : ¬ (ckStr = "" ∨ jsTrim ckStr = "")) (n : String)
    (hn : n ∈ parsedNames ckStr) :
    ∀ w ∈ writeStrings n hostname pn, w ∈ cookieWrites ckStr hostname pn := by
  intro w hw
  rw [parsedNames, List.mem_filterMap] at hn
  obtain ⟨c, hc, hfc⟩ := hn
  rw [cookieWrites, if_neg hguard]
  refine List.mem_flatMap.mpr ⟨c, hc, ?_⟩
  rw [hfc]
  exact hw

/-- C8: for every cookie name parsed from a non-empty `document.cookie`,
`clearCookies` writes the expiring entry (`expires=Thu, 01 Jan 1970`)
for each domain variant in {hostname, "." + hostname} and each path
variant in {"/", pathname}, both with and without the domain attribute;
and conversely every write stems from a segment whose parsed name is
non-empty (empty names are skipped). -/
theorem cookie_writes_all_variants (ckStr hostname pn : String)
    (hne : jsTrim ckStr ≠ "") :
    (∀ n ∈ parsedNames ckStr, ∀ dmn ∈ [hostname, "." ++ hostname], ∀ p ∈ ["/", pn],
      (n ++ "=; expires=Thu, 01 Jan 1970 00:00:00 GMT; path=" ++ p ++ "; domain=" ++ dmn)
        ∈ cookieWrites ckStr hostname pn ∧
      (n ++ "=; expires=Thu, 01 Jan 1970 00:00:00 GMT; path=" ++ p)
        ∈ cookieWrites ckStr hostname pn) ∧
    (∀ w ∈ cookieWrites ckStr hostname pn, ∃ n ∈ parsedNames ckStr,
      w ∈ writeStrings n hostname pn) := by
  have hguard : ¬ (ckStr = "" ∨ jsTrim ckStr = "") := by
    rintro (rfl | h)
    · exact hne rfl
    · exact hne h
  constructor
  · intro n hn dmn hdmn p hp
    constructor
    · exact parsedNames_writes ckStr hostname pn hguard n hn _
        (writePair_sub n hostname pn dmn p hdmn hp _ (List.mem_cons_self _ _))
    · exact parsedNames_writes ckStr hostname pn hguard n hn _
        (writePair_sub n hostname pn dmn p hdmn hp _
          (List.mem_cons_of_mem _ (List.mem_cons_self _ _)))
  · intro w hw
    rw [cookieWrites, if_neg hguard] at hw
    obtain ⟨c, hc, hwc⟩ := List.mem_flatMap.mp hw
    rcases hseg : segName c with _ | n
    · rw [hseg] at hwc
      simp at hwc
    · rw [hseg] at hwc
      refine ⟨n, ?_, hwc⟩
      rw [parsedNames, List.mem_filterMap]
      exact ⟨c, hc, hseg⟩

/-- Witness for C8: the cookie string `"a=1"` on host `example.com` with
pathname `/p` produces the with-domain and without-domain writes for the
name `a`, domain `example.com` and path `/`. -/
theorem cookie_writes_all_variants_witness :
    ("a" ++ "=; expires=Thu, 01 Jan 1970 00:00:00 GMT; path=" ++ "/" ++
        "; domain=" ++ "example.com") ∈ cookieWrites "a=1" "example.com" "/p" ∧
    ("a" ++ "=; expires=Thu, 01 Jan 1970 00:00:00 GMT; path=" ++ "/")
      ∈ cookieWrites "a=1" "example.com" "/p" := by
  have h := (cookie_writes_all_variants "a=1" "example.com" "/p" (by decide)).1
  exact h "a" (by decide) "example.com" (List.mem_cons_self _ _) "/"
    (List.mem_cons_self _ _)
